import Mathlib

/-!
Verification of the chat-message normalization and streaming-response
adaptation layer of `src/First_agent_example/local_model.py`
(class `LocalModel`, class `StreamerWrapper`).

The Python code is shallowly embedded: Python dicts become association
lists with first-match lookup, Python exceptions become `Except String`
(carrying the stringified exception message), and the external
collaborators (tokenizer, chat template, model) become an `Env` record of
possibly-raising functions.  All definitions are executable.
-/

/-! ## Data model (spec section 3, code lines 84-211) -/

/-- One content fragment of a message (an element of a content list).
A fragment is a dict carrying a "text" field, a raw string, or anything
else, which Python stringifies; the `other` constructor carries that
stringification. -/
inductive Fragment where
  | textDict (t : String)
  | str (s : String)
  | other (repr : String)
deriving DecidableEq

/-- The content of a message: a string, a list of fragments, or any other
value (carried as its Python stringification). -/
inductive Content where
  | str (s : String)
  | list (items : List Fragment)
  | other (repr : String)
deriving DecidableEq

/-- A message dict.  `role := none` models a dict without a "role" key and
`content := none` a dict without a "content" key. -/
structure Message where
  role : Option String
  content : Option Content
deriving DecidableEq

/-- An element of a conversation list: either a proper message dict or a
bare string (local_model.py lines 112-114 and 169-172 accept both). -/
inductive MsgOrStr where
  | str (s : String)
  | msg (m : Message)
deriving DecidableEq

/-- The conversation value passed to the layer: a bare string, a single
message dict, or a list (local_model.py lines 92-100). -/
inductive Conversation where
  | str (s : String)
  | dict (m : Message)
  | list (msgs : List MsgOrStr)
deriving DecidableEq

/-- A processed message as handed to the chat-template delegate
(local_model.py lines 107-145): the role key as found, and the content
resolved to a plain string. -/
structure ProcessedMsg where
  role : Option String
  content : String
deriving DecidableEq

/-! ## Python dict operations, modelled on association lists -/

/-- A Python dict, modelled as an association list with first-match
lookup. -/
abbrev PyDict (V : Type) := List (String × V)

/-- Dict lookup (first match). -/
def dget {V : Type} : PyDict V → String → Option V
  | [], _ => none
  | (k2, v) :: rest, k => if k2 = k then some v else dget rest k

/-- Python dict.pop of a key: removes every binding of that key. -/
def dpop {V : Type} (k : String) (d : PyDict V) : PyDict V :=
  d.filter (fun p => decide (p.1 ≠ k))

/-- Python dict.update: bindings of the second dict override those of the
first; keys new to the second dict are appended. -/
def dupdate {V : Type} (d other : PyDict V) : PyDict V :=
  d.map (fun p => (p.1, (dget other p.1).getD p.2))
    ++ other.filter (fun p => (dget d p.1).isNone)

/-- A value in the generation-options dict. -/
inductive GenValue where
  | int (n : Int)
  | rat (q : Rat)
  | bool (b : Bool)
  | str (s : String)
  | obj (tag : String)
  | noneV
deriving DecidableEq

/-! ## The adapter configuration and its external collaborators -/

/-- Token ids produced by the tokenizer call (line 234); their structure is
irrelevant to this layer. -/
abbrev Tokens := List Nat

/-- The constructor-supplied configuration of LocalModel used by
generate (__init__, lines 42-43). -/
structure LocalModel where
  max_tokens : Int
  temperature : Rat
deriving DecidableEq

/-- The external collaborators of the layer.  `chatTemplate := none`
models a tokenizer without apply_chat_template (hasattr false, line 103);
a `some` delegate may raise.  `tokenize` models the tokenizer call (line
234) and `modelGenerate` the non-streaming model.generate plus decode
(lines 264-272), both possibly raising.  `streamFragments` is the fragment
sequence the streaming collaborator will produce (lines 250-261), and
`streamerRepr` the Python stringification of the streamer object. -/
structure Env where
  chatTemplate : Option (List ProcessedMsg → Except String String)
  tokenize : String → Except String Tokens
  modelGenerate : Tokens → PyDict GenValue → Except String String
  streamFragments : List String
  eosTokenId : GenValue
  streamerRepr : String

/-! ## Message normalization (LocalModel._format_messages, lines 84-211) -/

/-- Python str.capitalize: first character upper-cased, the rest
lower-cased (line 202). -/
def pyCapitalize (s : String) : String :=
  match s.data with
  | [] => ""
  | c :: cs => String.mk (Char.toUpper c :: cs.map Char.toLower)

/-- Text extracted from one content fragment (lines 128-134 and
186-192): the "text" field of a dict when present, a string verbatim,
anything else stringified. -/
def fragText : Fragment → String
  | Fragment.textDict t => t
  | Fragment.str s => s
  | Fragment.other r => r

/-- Resolve a message content to a plain string (lines 117-143 and
176-200; the two code paths perform the identical computation): a missing
field is empty content, a string is used verbatim, a fragment list is
extracted per fragment and joined with newlines, anything else is
stringified. -/
def resolveContent : Option Content → String
  | none => ""
  | some (Content.str s) => s
  | some (Content.list items) => String.intercalate "\n" (items.map fragText)
  | some (Content.other r) => r

/-- Processing of one message for the chat-template path (lines 112-144):
a bare string becomes a user message; a dict keeps its role key and has
its content resolved to a string. -/
def processMessage : MsgOrStr → ProcessedMsg
  | MsgOrStr.str s => { role := some "user", content := s }
  | MsgOrStr.msg m => { role := m.role, content := resolveContent m.content }

/-- One line of the fallback format (lines 169-202): a bare string message
gets the fixed "User: " framing; a dict uses its capitalized role
(defaulting to "user") and resolved content. -/
def fallbackLine : MsgOrStr → String
  | MsgOrStr.str s => "User: " ++ s ++ "\n"
  | MsgOrStr.msg m =>
      pyCapitalize (m.role.getD "user") ++ ": " ++ resolveContent m.content ++ "\n"

/-- The fallback assembly (lines 163-206): one line per message, then the
trailing assistant cue. -/
def fallbackFormat (msgs : List MsgOrStr) : String :=
  String.join (msgs.map fallbackLine) ++ "Assistant: "

/-- Normalization of a message list (lines 102-206): when a chat-template
delegate exists it is tried on the processed messages and any failure
falls back to the simple format; without a delegate the simple format is
used directly. -/
def formatMessageList (env : Env) (msgs : List MsgOrStr) : String :=
  match env.chatTemplate with
  | some tmpl =>
      match tmpl (msgs.map processMessage) with
      | Except.ok s => s
      | Except.error _ => fallbackFormat msgs
  | none => fallbackFormat msgs

/-- LocalModel._format_messages (lines 84-211): a bare string is wrapped
in the fixed single-turn template immediately (lines 92-95); a single dict
is lifted into a one-element list (lines 98-100); a list is normalized.
Total: every internal failure is caught inside the function. -/
def formatMessages (env : Env) (messages : Conversation) : String :=
  match messages with
  | Conversation.str s => "User: " ++ s ++ "\nAssistant: "
  | Conversation.dict m => formatMessageList env [MsgOrStr.msg m]
  | Conversation.list l => formatMessageList env l

/-! ## Generation (LocalModel.generate, lines 213-279) -/

/-- The default generation options (lines 236-241). -/
def defaultGenerationConfig (self : LocalModel) (env : Env) : PyDict GenValue :=
  [("max_new_tokens", GenValue.int self.max_tokens),
   ("temperature", GenValue.rat self.temperature),
   ("do_sample", GenValue.bool (decide (self.temperature > 0))),
   ("pad_token_id", env.eosTokenId)]

/-- The generation options actually forwarded to the model capability
(lines 243-247): caller options minus stop_sequences, laid over the
defaults. -/
def forwardedConfig (self : LocalModel) (env : Env) (kwargs : PyDict GenValue) :
    PyDict GenValue :=
  dupdate (defaultGenerationConfig self env) (dpop "stop_sequences" kwargs)

/-- The value returned by generate: a complete string (non-streaming
result, or the error string from the shared handler), or the streamer
handle carrying the fragments it will yield. -/
inductive GenResponse where
  | str (s : String)
  | streamer (frags : List String)
deriving DecidableEq

/-- The body of the try block of LocalModel.generate (lines 230-275):
normalization, the tokenizer call (which may raise), the option
assembly, then either the streamer handle (stream path, lines 249-261)
or the synchronous model call and decode (lines 262-275, which may
raise). -/
def generateBody (env : Env) (self : LocalModel) (messages : Conversation)
    (stream : Bool) (kwargs : PyDict GenValue) : Except String GenResponse :=
  let formatted_input := formatMessages env messages
  match env.tokenize formatted_input with
  | Except.error e => Except.error e
  | Except.ok inputs =>
      let generation_config := forwardedConfig self env kwargs
      if stream then
        Except.ok (GenResponse.streamer env.streamFragments)
      else
        match env.modelGenerate inputs generation_config with
        | Except.error e => Except.error e
        | Except.ok output_text => Except.ok (GenResponse.str output_text)

/-- LocalModel.generate (lines 213-279): the body with its shared
exception handler, which converts any raised exception into the returned
string "Error generating response: " followed by the message (lines
276-279). -/
def generate (env : Env) (self : LocalModel) (messages : Conversation)
    (stream : Bool) (kwargs : PyDict GenValue) : GenResponse :=
  match generateBody env self messages stream kwargs with
  | Except.ok r => r
  | Except.error e => GenResponse.str ("Error generating response: " ++ e)

/-! ## Response adaptation (LocalModel.__call__, lines 282-423) -/

/-- The uniform response object (spec: ResponseEnvelope).  Models both the
ActionStep-subclass variant (lines 294-312) and the fallback variant
(lines 317-333) of the inner ResponseObject class: both set the same
observable fields, with content and model_output both set to the wrapped
string and everything else defaulted. -/
structure ResponseObject where
  content : String
  model_output : String
  step_number : Option Int
  tool_calls : Option (List String)
  observations : Option String
  error : Option String
  input_token_count : Int
  output_token_count : Int
  duration : Option Rat
deriving DecidableEq

/-- ResponseObject(content): both class variants set content and
model_output to the argument, token counts to 0 and the rest to None. -/
def mkResponseObject (content : String) : ResponseObject :=
  { content := content
    model_output := content
    step_number := none
    tool_calls := none
    observations := none
    error := none
    input_token_count := 0
    output_token_count := 0
    duration := none }

/-- A ResponseObject whose error field has additionally been assigned
(lines 368-369 and 420-421). -/
def errResponseObject (content err : String) : ResponseObject :=
  { mkResponseObject content with error := some err }

/-- The value returned by LocalModel.__call__: a single envelope
(non-streaming and error cases) or the StreamerWrapper around whatever
generate returned (line 372: the wrapper is built around the response
unconditionally, even when it is an error string). -/
inductive CallResult where
  | envelope (r : ResponseObject)
  | stream (wrapped : GenResponse)
deriving DecidableEq

/-- The body of the try block of LocalModel.__call__ (lines 335-414).
generate never raises (it has its own handler), so the only fallible
steps left are total in this model; the non-streaming branch mirrors
lines 375-414: a string is wrapped (line 379); a streamer has no content
attribute, so it falls to the final else and its stringification is
wrapped (lines 409-414). -/
def callBody (env : Env) (self : LocalModel) (messages : Conversation)
    (stream : Bool) (kwargs : PyDict GenValue) : Except String CallResult :=
  let response := generate env self messages stream kwargs
  if stream then
    Except.ok (CallResult.stream response)
  else
    match response with
    | GenResponse.str s => Except.ok (CallResult.envelope (mkResponseObject s))
    | GenResponse.streamer _ =>
        Except.ok (CallResult.envelope (mkResponseObject env.streamerRepr))

/-- LocalModel.__call__ (lines 282-423): the body plus the outermost
handler, which converts an escaping exception into an envelope with
content "Error: " plus the message and the error field set (lines
416-423). -/
def call (env : Env) (self : LocalModel) (messages : Conversation)
    (stream : Bool) (kwargs : PyDict GenValue) : CallResult :=
  match callBody env self messages stream kwargs with
  | Except.ok r => r
  | Except.error e => CallResult.envelope (errResponseObject ("Error: " ++ e) e)

/-! ## The streaming wrapper (StreamerWrapper, lines 350-374) -/

/-- The message of the Python TypeError raised by next() on a string
value ("str object is not an iterator", with the type name quoted). -/
def strNotIteratorMsg : String := "\x27str\x27 object is not an iterator"

/-- The envelope yielded by the wrapper when pulling from the underlying
value raises the non-iterator TypeError (lines 366-370). -/
def streamErrorEnvelope : ResponseObject :=
  errResponseObject ("Error in stream: " ++ strNotIteratorMsg) strNotIteratorMsg

/-- The result of one pull on the wrapper: an envelope plus the wrapper
state afterwards, or the StopIteration signal. -/
inductive PullResult where
  | yield (r : ResponseObject) (rest : GenResponse)
  | stop
deriving DecidableEq

/-- StreamerWrapper.__next__ (lines 357-370): pulling one fragment from a
real streamer yields it wrapped in an envelope; an exhausted streamer
re-raises StopIteration; next() on a string raises the TypeError, which
the except branch converts into an error envelope while leaving the
wrapped value unchanged. -/
def wrapperNext : GenResponse → PullResult
  | GenResponse.str s =>
      PullResult.yield streamErrorEnvelope (GenResponse.str s)
  | GenResponse.streamer [] => PullResult.stop
  | GenResponse.streamer (c :: rest) =>
      PullResult.yield (mkResponseObject c) (GenResponse.streamer rest)

/-- The envelope produced by the (n+1)-st pull on the wrapper, or none if
the wrapper has signalled exhaustion by then. -/
def nthPull : GenResponse → Nat → Option ResponseObject
  | st, 0 =>
      match wrapperNext st with
      | PullResult.stop => none
      | PullResult.yield r _ => some r
  | st, Nat.succ n =>
      match wrapperNext st with
      | PullResult.stop => none
      | PullResult.yield _ st2 => nthPull st2 n

/-! ## Concrete environments used as witnesses -/

/-- A benign environment: no chat template, tokenization succeeds, the
model returns the given text. -/
def pureEnv (gen : String) : Env :=
  { chatTemplate := none
    tokenize := fun _ => Except.ok []
    modelGenerate := fun _ _ => Except.ok gen
    streamFragments := []
    eosTokenId := GenValue.int 0
    streamerRepr := "TextIteratorStreamer" }

/-- An environment whose tokenizer call raises "boom". -/
def raisingTokenizeEnv : Env :=
  { pureEnv "hi" with tokenize := fun _ => Except.error "boom" }

/-- An environment whose model call raises "OOM". -/
def oomEnv : Env :=
  { pureEnv "hi" with modelGenerate := fun _ _ => Except.error "OOM" }

/-- A chat-template delegate that always fails. -/
def tmplFail : List ProcessedMsg → Except String String :=
  fun _ => Except.error "tmplboom"

/-- An environment whose chat-template delegate always fails. -/
def templFailEnv : Env :=
  { pureEnv "hi" with chatTemplate := some tmplFail }

/-- A chat-template delegate returning a fixed marker string. -/
def tmplConst : List ProcessedMsg → Except String String :=
  fun _ => Except.ok "TEMPLATED"

/-- An environment with a chat-template delegate that returns a marker. -/
def templEnv : Env :=
  { pureEnv "hi" with chatTemplate := some tmplConst }

/-- The default constructor configuration (max_tokens 2048, temperature
0.5). -/
def self0 : LocalModel := { max_tokens := 2048, temperature := 1/2 }

/-! ## Lookup lemmas for the dict model -/

/-- Lookup skips a head entry with a different key. -/
theorem dget_cons_of_ne {V : Type} {k2 k : String} (v : V) (rest : PyDict V)
    (h : k2 ≠ k) : dget ((k2, v) :: rest) k = dget rest k := by
  simp [dget, h]

/-- Lookup in an append when the left part has the key. -/
theorem dget_append_of_some {V : Type} {a : PyDict V} {k : String} {v : V}
    (b : PyDict V) (h : dget a k = some v) : dget (a ++ b) k = some v := by
  induction a with
  | nil => simp [dget] at h
  | cons p rest ih =>
      obtain ⟨k2, w⟩ := p
      by_cases hk : k2 = k
      · subst hk
        simp [dget] at h ⊢
        exact h
      · rw [List.cons_append, dget_cons_of_ne _ _ hk]
        exact ih (by rwa [dget_cons_of_ne _ _ hk] at h)

/-- Lookup in an append when the left part lacks the key. -/
theorem dget_append_of_none {V : Type} {a : PyDict V} {k : String}
    (b : PyDict V) (h : dget a k = none) : dget (a ++ b) k = dget b k := by
  induction a with
  | nil => rfl
  | cons p rest ih =>
      obtain ⟨k2, w⟩ := p
      by_cases hk : k2 = k
      · subst hk; simp [dget] at h
      · rw [List.cons_append, dget_cons_of_ne _ _ hk]
        exact ih (by rwa [dget_cons_of_ne _ _ hk] at h)

/-- Filtering with a predicate that keeps every entry of a key does not
change lookup at that key. -/
theorem dget_filter_keep {V : Type} (p : String × V → Bool) (l : PyDict V)
    (k : String) (h : ∀ v, p (k, v) = true) :
    dget (l.filter p) k = dget l k := by
  induction l with
  | nil => rfl
  | cons a rest ih =>
      obtain ⟨k2, v⟩ := a
      by_cases hk : k2 = k
      · subst hk
        simp [List.filter_cons, h v, dget, ih]
      · cases hp : p (k2, v) <;>
          simp [List.filter_cons, hp, dget, hk, ih]

/-- Filtering with a predicate that drops every entry of a key makes
lookup at that key fail. -/
theorem dget_filter_drop {V : Type} (p : String × V → Bool) (l : PyDict V)
    (k : String) (h : ∀ v, p (k, v) = false) :
    dget (l.filter p) k = none := by
  induction l with
  | nil => rfl
  | cons a rest ih =>
      obtain ⟨k2, v⟩ := a
      by_cases hk : k2 = k
      · subst hk
        simp [List.filter_cons, h v, ih]
      · cases hp : p (k2, v) <;>
          simp [List.filter_cons, hp, dget, hk, ih]

/-- Filtering preserves a failing lookup. -/
theorem dget_filter_none {V : Type} (p : String × V → Bool) (l : PyDict V)
    (k : String) (h : dget l k = none) : dget (l.filter p) k = none := by
  induction l with
  | nil => rfl
  | cons a rest ih =>
      obtain ⟨k2, v⟩ := a
      by_cases hk : k2 = k
      · subst hk; simp [dget] at h
      · have h2 : dget rest k = none := by
          rwa [dget_cons_of_ne _ _ hk] at h
        cases hp : p (k2, v) <;>
          simp [List.filter_cons, hp, dget, hk, ih h2]

/-- Lookup through the value-rewriting map used by dupdate. -/
theorem dget_dupdate_map {V : Type} (o d : PyDict V) (k : String) :
    dget (d.map fun p => (p.1, (dget o p.1).getD p.2)) k
      = (dget d k).map (fun v => (dget o k).getD v) := by
  induction d with
  | nil => rfl
  | cons a rest ih =>
      obtain ⟨k2, v⟩ := a
      by_cases hk : k2 = k
      · subst hk; simp [dget]
      · simp [dget, hk, ih]

/-- dict.update lookup: a key bound in the overriding dict takes its
value from there. -/
theorem dget_dupdate_of_some {V : Type} {o : PyDict V} {k : String} {v : V}
    (d : PyDict V) (h : dget o k = some v) : dget (dupdate d o) k = some v := by
  unfold dupdate
  cases hd : dget d k with
  | some w =>
      apply dget_append_of_some
      rw [dget_dupdate_map, hd, h]
      rfl
  | none =>
      rw [dget_append_of_none _ (by rw [dget_dupdate_map, hd]; rfl)]
      rw [dget_filter_keep _ _ _ (fun v2 => by simp [hd])]
      exact h

/-- dict.update lookup: a key absent from the overriding dict keeps the
value of the base dict. -/
theorem dget_dupdate_of_none {V : Type} {o : PyDict V} {k : String}
    (d : PyDict V) (h : dget o k = none) : dget (dupdate d o) k = dget d k := by
  unfold dupdate
  cases hd : dget d k with
  | some w =>
      apply dget_append_of_some
      rw [dget_dupdate_map, hd, h]
      rfl
  | none =>
      rw [dget_append_of_none _ (by rw [dget_dupdate_map, hd]; rfl)]
      exact dget_filter_none _ _ _ h

/-- dict.pop leaves lookups of other keys unchanged. -/
theorem dget_dpop_ne {V : Type} {s k : String} (d : PyDict V) (h : k ≠ s) :
    dget (dpop s d) k = dget d k := by
  apply dget_filter_keep
  intro v
  simp [h]

/-- dict.pop removes the popped key. -/
theorem dget_dpop_self {V : Type} (s : String) (d : PyDict V) :
    dget (dpop s d) s = none := by
  apply dget_filter_drop
  intro v
  simp

/-! ## Pull lemmas for the streaming wrapper -/

/-- Every envelope yielded by one pull has equal content and
model_output. -/
theorem wrapperNext_content_eq {gr st2 : GenResponse} {r : ResponseObject}
    (h : wrapperNext gr = PullResult.yield r st2) :
    r.content = r.model_output := by
  cases gr with
  | str s =>
      simp [wrapperNext] at h
      rw [← h.1]
      rfl
  | streamer frags =>
      cases frags with
      | nil => simp [wrapperNext] at h
      | cons c rest =>
          simp [wrapperNext] at h
          rw [← h.1]
          rfl

/-- Pulling from a wrapper around a plain string yields the fixed
non-iterator error envelope forever, with the wrapped value unchanged. -/
theorem nthPull_str (s : String) (n : Nat) :
    nthPull (GenResponse.str s) n = some streamErrorEnvelope := by
  induction n with
  | zero => rfl
  | succ n ih => simpa [nthPull, wrapperNext] using ih

/-- Pulling from a wrapper around a real streamer yields exactly the
underlying fragments, each wrapped in a fresh envelope, then exhaustion. -/
theorem nthPull_streamer (frags : List String) (n : Nat) :
    nthPull (GenResponse.streamer frags) n = (frags[n]?).map mkResponseObject := by
  induction n generalizing frags with
  | zero => cases frags <;> simp [nthPull, wrapperNext]
  | succ n ih =>
      cases frags with
      | nil => rfl
      | cons c rest => simpa [nthPull, wrapperNext] using ih rest

/-! ## Claims -/

/-- A message carrying the fragment list of a text-dict "a" and a bare
string "b", used by the C7 statements. -/
def fragMsgAB : MsgOrStr :=
  MsgOrStr.msg { role := some "user", content := some (Content.list [Fragment.textDict "a", Fragment.str "b"]) }

/-- A message dict without a content key, used by the C8 statements. -/
def emptyContentMsg : MsgOrStr :=
  MsgOrStr.msg { role := some "user", content := none }

/-- Claim C6: for every string input s passed as the conversation,
normalization returns exactly "User: " ++ s ++ "\nAssistant: "; the fixed
single-turn template applies even when a chat-template delegate exists,
since the string case returns before the delegate is consulted. -/
theorem c6_string_input (env : Env) (s : String) :
    formatMessages env (Conversation.str s) = "User: " ++ s ++ "\nAssistant: "
    ∧ formatMessages templEnv (Conversation.str "hi") = "User: hi\nAssistant: " :=
  ⟨rfl, rfl⟩

/-- Claim C7: content that is a fragment list is resolved by taking a
fragment's text field when present, a bare string verbatim, and the
stringification otherwise, joined with newlines in original order; in
particular the list of a text-dict "a" and a bare string "b" resolves to
"a\nb", on the chat-template processing path and end to end through the
fallback format. -/
theorem c7_fragment_extraction (frags : List Fragment) (t s r : String)
    (m : Option String) :
    resolveContent (some (Content.list frags))
        = String.intercalate "\n" (frags.map fragText)
    ∧ fragText (Fragment.textDict t) = t
    ∧ fragText (Fragment.str s) = s
    ∧ fragText (Fragment.other r) = r
    ∧ (processMessage (MsgOrStr.msg
        { role := m, content := some (Content.list frags) })).content
        = String.intercalate "\n" (frags.map fragText)
    ∧ resolveContent (some (Content.list [Fragment.textDict "a", Fragment.str "b"]))
        = "a\nb"
    ∧ formatMessages (pureEnv "hi") (Conversation.list [fragMsgAB])
        = "User: a\nb\nAssistant: " :=
  ⟨rfl, rfl, rfl, rfl, rfl, rfl, rfl⟩

/-- Claim C8: a message without a content field is treated as empty
content on both normalization paths, and even a raising chat-template
delegate only causes the fallback format to be used, so normalization
never raises on such a message. -/
theorem c8_missing_content (env : Env) (role : Option String)
    (t : List ProcessedMsg → Except String String) (e : String) :
    (processMessage (MsgOrStr.msg { role := role, content := none })).content = ""
    ∧ fallbackLine (MsgOrStr.msg { role := role, content := none })
        = pyCapitalize (role.getD "user") ++ ": " ++ "\n"
    ∧ (env.chatTemplate = some t →
        t [processMessage emptyContentMsg] = Except.error e →
        formatMessages env (Conversation.list [emptyContentMsg])
          = "User: \nAssistant: ") := by
  refine ⟨rfl, ?_, fun h1 h2 => ?_⟩
  · simp [fallbackLine, resolveContent, String.append_empty]
  · simp only [formatMessages, formatMessageList, h1, List.map]
    rw [h2]
    rfl

/-- Witness for C8 at a concrete message and a concrete raising
delegate. -/
theorem c8_witness :
    (processMessage (MsgOrStr.msg { role := some "assistant", content := none })).content = ""
    ∧ formatMessages templFailEnv (Conversation.list [emptyContentMsg])
        = "User: \nAssistant: " :=
  ⟨(c8_missing_content templFailEnv (some "assistant") tmplFail "tmplboom").1,
   (c8_missing_content templFailEnv (some "assistant") tmplFail "tmplboom").2.2 rfl rfl⟩

/-- Claim C9: the streaming wrapper yields, on the n-th pull, exactly the
n-th underlying fragment wrapped in an envelope whose content and
model_output are that fragment, and signals exhaustion exactly when the
underlying stream is exhausted; in particular the sequence of "He" and
"llo" yields those two envelopes and then exhaustion. -/
theorem c9_stream_wrapper (frags : List String) (n : Nat) (c : String) :
    nthPull (GenResponse.streamer frags) n = (frags[n]?).map mkResponseObject
    ∧ (mkResponseObject c).content = c
    ∧ (mkResponseObject c).model_output = c
    ∧ nthPull (GenResponse.streamer ["He", "llo"]) 0 = some (mkResponseObject "He")
    ∧ nthPull (GenResponse.streamer ["He", "llo"]) 1 = some (mkResponseObject "llo")
    ∧ nthPull (GenResponse.streamer ["He", "llo"]) 2 = none :=
  ⟨nthPull_streamer frags n, rfl, rfl, rfl, rfl, rfl⟩

set_option maxRecDepth 8192 in
/-- Claim C10: when the wrapper wraps a plain string (as happens when the
shared handler of generate returned an error string on the streaming
path), every pull yields the same error envelope, whose error field is
the non-iterator TypeError message and whose content begins with
"Error in stream: "; the wrapper never signals exhaustion. -/
theorem c10_noniterator_wrapper (s : String) (n : Nat) :
    nthPull (GenResponse.str s) n = some streamErrorEnvelope
    ∧ streamErrorEnvelope.error = some strNotIteratorMsg
    ∧ streamErrorEnvelope.content = "Error in stream: " ++ strNotIteratorMsg
    ∧ streamErrorEnvelope.content.take 17 = "Error in stream: "
    ∧ wrapperNext (GenResponse.str s)
        = PullResult.yield streamErrorEnvelope (GenResponse.str s) :=
  ⟨nthPull_str s n, rfl, rfl, rfl, rfl⟩

/-- Claim C2: every envelope produced by the layer has content equal to
model_output: any envelope returned by the call entry point, any envelope
yielded by any pull on the streaming wrapper, and the explicitly
error-carrying envelopes. -/
theorem c2_envelope_invariant (env : Env) (self : LocalModel)
    (messages : Conversation) (stream : Bool) (kwargs : PyDict GenValue) :
    (∀ r, call env self messages stream kwargs = CallResult.envelope r →
        r.content = r.model_output)
    ∧ (∀ gr n r, nthPull gr n = some r → r.content = r.model_output)
    ∧ (∀ c e, (errResponseObject c e).content = (errResponseObject c e).model_output) := by
  refine ⟨?_, ?_, fun c e => rfl⟩
  · intro r h
    cases stream with
    | true => simp [call, callBody] at h
    | false =>
        cases hg : generate env self messages false kwargs with
        | str s =>
            simp [call, callBody, hg] at h
            rw [← h]
            rfl
        | streamer frags =>
            simp [call, callBody, hg] at h
            rw [← h]
            rfl
  · intro gr n r h
    induction n generalizing gr with
    | zero =>
        cases hw : wrapperNext gr with
        | stop => simp [nthPull, hw] at h
        | yield r2 st2 =>
            simp [nthPull, hw] at h
            rw [← h]
            exact wrapperNext_content_eq hw
    | succ n ih =>
        cases hw : wrapperNext gr with
        | stop => simp [nthPull, hw] at h
        | yield r2 st2 =>
            simp only [nthPull, hw] at h
            exact ih st2 h

/-- Witness for C2: the invariant at a concrete non-streaming call and a
concrete streamed pull. -/
theorem c2_witness :
    (mkResponseObject "hi").content = (mkResponseObject "hi").model_output
    ∧ (mkResponseObject "a").content = (mkResponseObject "a").model_output :=
  ⟨(c2_envelope_invariant (pureEnv "hi") self0 (Conversation.str "x") false []).1
      (mkResponseObject "hi") rfl,
   (c2_envelope_invariant (pureEnv "hi") self0 (Conversation.str "x") false []).2.1
      (GenResponse.streamer ["a"]) 0 (mkResponseObject "a") rfl⟩

/-- Claim C4: on the non-streaming path every exception raised inside the
generation body is caught and converted into the returned string
"Error generating response: " plus the message; in particular a model
call raising "OOM" yields exactly "Error generating response: OOM" and no
exception escapes. -/
theorem c4_nonstreaming_error_string (env : Env) (self : LocalModel)
    (messages : Conversation) (kwargs : PyDict GenValue) :
    (∀ e, generateBody env self messages false kwargs = Except.error e →
        generate env self messages false kwargs
          = GenResponse.str ("Error generating response: " ++ e))
    ∧ (∀ inputs, env.tokenize (formatMessages env messages) = Except.ok inputs →
        env.modelGenerate inputs (forwardedConfig self env kwargs) = Except.error "OOM" →
        generate env self messages false kwargs
          = GenResponse.str "Error generating response: OOM") := by
  constructor
  · intro e h
    unfold generate
    rw [h]
  · intro inputs h1 h2
    simp only [generate, generateBody, h1, h2]
    rfl

/-- Witness for C4 at a concrete environment whose model call raises
"OOM". -/
theorem c4_witness :
    generate oomEnv self0 (Conversation.str "x") false []
      = GenResponse.str "Error generating response: OOM" :=
  (c4_nonstreaming_error_string oomEnv self0 (Conversation.str "x") []).2 [] rfl rfl

/-- Claim C5: the options forwarded to the model capability never contain
a stop_sequences key, and every other caller-supplied option is forwarded
verbatim, overriding the defaults when present. -/
theorem c5_stop_sequences_dropped (self : LocalModel) (env : Env)
    (kwargs : PyDict GenValue) :
    dget (forwardedConfig self env kwargs) "stop_sequences" = none
    ∧ (∀ k v, k ≠ "stop_sequences" → dget kwargs k = some v →
        dget (forwardedConfig self env kwargs) k = some v) := by
  constructor
  · unfold forwardedConfig
    rw [dget_dupdate_of_none _ (dget_dpop_self _ _)]
    unfold defaultGenerationConfig
    rw [dget_cons_of_ne _ _ (by decide), dget_cons_of_ne _ _ (by decide),
        dget_cons_of_ne _ _ (by decide), dget_cons_of_ne _ _ (by decide)]
    rfl
  · intro k v hk hkv
    unfold forwardedConfig
    exact dget_dupdate_of_some _ (by rw [dget_dpop_ne _ hk]; exact hkv)

/-- Concrete caller options for the C5 witness, containing both a
stop_sequences entry and a temperature override. -/
def kwargs0 : PyDict GenValue :=
  [("stop_sequences", GenValue.obj "stops"), ("temperature", GenValue.rat 1)]

/-- Witness for C5 at concrete caller options. -/
theorem c5_witness :
    dget (forwardedConfig self0 (pureEnv "hi") kwargs0) "stop_sequences" = none
    ∧ dget (forwardedConfig self0 (pureEnv "hi") kwargs0) "temperature"
        = some (GenValue.rat 1) :=
  ⟨(c5_stop_sequences_dropped self0 (pureEnv "hi") kwargs0).1,
   (c5_stop_sequences_dropped self0 (pureEnv "hi") kwargs0).2 "temperature"
      (GenValue.rat 1) (by decide) rfl⟩

set_option maxRecDepth 8192 in
/-- Claim C1 counterexample: with a tokenizer that raises "boom" and the
stream flag off, the call returns the generate-level error envelope: its
content is "Error generating response: boom", which does not start with
"Error: ", and its error field is unset — so an exception in generation
is not converted at the outermost boundary into an envelope of the
claimed shape. -/
theorem c1_counterexample :
    call raisingTokenizeEnv self0 (Conversation.str "x") false []
      = CallResult.envelope (mkResponseObject "Error generating response: boom")
    ∧ (mkResponseObject "Error generating response: boom").error = none
    ∧ (mkResponseObject "Error generating response: boom").content.take 7 ≠ "Error: " :=
  ⟨rfl, rfl, by decide⟩

/-- Claim C1 (amended): the call entry point never raises for any
conversation, stream flag, and options (its body always returns a
value, so the outermost handler is never exercised); exceptions raised
during normalization are recovered inside normalization, and exceptions
raised during generation are caught at the generate boundary and
surface as an ordinary envelope whose content is
"Error generating response: " plus the message with the error field
unset. -/
theorem c1_call_never_raises (env : Env) (self : LocalModel)
    (messages : Conversation) (kwargs : PyDict GenValue) :
    (∀ stream, callBody env self messages stream kwargs
        = Except.ok (call env self messages stream kwargs))
    ∧ (∀ inputs e, env.tokenize (formatMessages env messages) = Except.ok inputs →
        env.modelGenerate inputs (forwardedConfig self env kwargs) = Except.error e →
        call env self messages false kwargs
          = CallResult.envelope (mkResponseObject ("Error generating response: " ++ e))
          ∧ (mkResponseObject ("Error generating response: " ++ e)).error = none) := by
  constructor
  · intro stream
    cases stream with
    | true => rfl
    | false =>
        cases hg : generate env self messages false kwargs with
        | str s => simp [call, callBody, hg]
        | streamer frags => simp [call, callBody, hg]
  · intro inputs e h1 h2
    have hg : generate env self messages false kwargs
        = GenResponse.str ("Error generating response: " ++ e) := by
      simp only [generate, generateBody, h1, h2]
      rfl
    exact ⟨by simp [call, callBody, hg], rfl⟩

/-- Witness for C1 (amended) at a concrete environment whose model call
raises "OOM". -/
theorem c1_witness :
    callBody oomEnv self0 (Conversation.str "x") false []
      = Except.ok (call oomEnv self0 (Conversation.str "x") false [])
    ∧ call oomEnv self0 (Conversation.str "x") false []
      = CallResult.envelope (mkResponseObject "Error generating response: OOM") :=
  ⟨(c1_call_never_raises oomEnv self0 (Conversation.str "x") []).1 false,
   ((c1_call_never_raises oomEnv self0 (Conversation.str "x") []).2 [] "OOM" rfl rfl).1⟩

/-- Claim C3 counterexample: with a tokenizer that raises "boom" and the
stream flag set, generate catches the setup exception with the same
shared handler as the non-streaming path and returns the converted error
string in place of a fragment sequence — the conversion does happen at
the generation step on the streaming path. -/
theorem c3_counterexample :
    generate raisingTokenizeEnv self0 (Conversation.str "x") true []
      = GenResponse.str "Error generating response: boom" := rfl

/-- Claim C3 (amended): on the streaming path an exception during
generation setup is caught by the shared handler, so generate returns the
string "Error generating response: " plus the message in place of the
fragment sequence; the call wraps that string unchanged, and the failure
surfaces only when the wrapper is consumed, on every pull, inside the
yielded envelope's error field. -/
theorem c3_streaming_setup_errors (env : Env) (self : LocalModel)
    (messages : Conversation) (kwargs : PyDict GenValue) (e : String)
    (h : env.tokenize (formatMessages env messages) = Except.error e) :
    generate env self messages true kwargs
      = GenResponse.str ("Error generating response: " ++ e)
    ∧ call env self messages true kwargs
      = CallResult.stream (GenResponse.str ("Error generating response: " ++ e))
    ∧ (∀ n, nthPull (GenResponse.str ("Error generating response: " ++ e)) n
        = some streamErrorEnvelope)
    ∧ streamErrorEnvelope.error = some strNotIteratorMsg := by
  have hg : generate env self messages true kwargs
      = GenResponse.str ("Error generating response: " ++ e) := by
    simp only [generate, generateBody, h]
  exact ⟨hg, by simp [call, callBody, hg], fun n => nthPull_str _ n, rfl⟩

/-- Witness for C3 (amended) at a concrete environment whose tokenizer
raises "boom". -/
theorem c3_witness :
    generate raisingTokenizeEnv self0 (Conversation.str "x") true []
      = GenResponse.str ("Error generating response: " ++ "boom")
    ∧ call raisingTokenizeEnv self0 (Conversation.str "x") true []
      = CallResult.stream (GenResponse.str ("Error generating response: " ++ "boom")) :=
  ⟨(c3_streaming_setup_errors raisingTokenizeEnv self0 (Conversation.str "x") [] "boom" rfl).1,
   (c3_streaming_setup_errors raisingTokenizeEnv self0 (Conversation.str "x") [] "boom" rfl).2.1⟩
